import Mathlib

/-!
Shallow embedding of the two-phase reliable fetch orchestrator of
web-text-pipe-go (pkg/runner/reliable_scraper.go and pkg/runner/runner.go),
together with theorems checking the specification claims against it.

Modelling choices:
* Go errors are `Option String` (`none` = nil, `some msg` = non-nil error
  carrying a message).
* The injected collaborators are modelled as pure functions:
  the bulk fetcher (`scraper.Scraper.ScrapeInParallel`) as
  `List String → List URLResult`, and the single-URL extractor
  (`Extractor.FetchAndExtractText`) as `String → ExtractResult`.
  Contexts, logging and the real-time sleeps have no effect on the returned
  data and are elided.
* Besides the returned result list, the orchestrator embedding records the
  observable control-flow facts the claims talk about: whether the retry
  branch was entered, which URLs the extractor was invoked on, and whether
  the retry-error warning branch was taken.
-/

namespace WebTextPipe

/-- types.URLResult: { URL, Content, Error } as produced by the bulk fetcher
and by the retry phase. -/
structure URLResult where
  url : String
  content : String
  error : Option String
deriving Repr, DecidableEq

/-- The outcome of one Extractor.FetchAndExtractText call:
(content, hasBodyFound, err). -/
structure ExtractResult where
  content : String
  hasBodyFound : Bool
  error : Option String
deriving Repr, DecidableEq

/-- An Extractor behaviour: what FetchAndExtractText returns on each URL. -/
def Extractor : Type := String → ExtractResult

/-- The bulk-phase classification predicate of classifyResults:
`res.Error != nil || res.Content == ""` sends the result to failedURLs. -/
def bulkFailed (res : URLResult) : Bool :=
  res.error.isSome || res.content == ""

/-- classifyResults (reliable_scraper.go): partitions the bulk results into
successfulResults and failedURLs.  The Go loop appends each element to the
back of one of the two accumulators in input order; the structural recursion
below builds the same two lists. -/
def classifyResults : List URLResult → List URLResult × List String
  | [] => ([], [])
  | res :: rest =>
    let p := classifyResults rest
    if bulkFailed res then (p.1, res.url :: p.2)
    else (res :: p.1, p.2)

/-- The per-URL retry-phase error computed inside the processFailedURLs loop:
`err != nil` wraps the extractor error, otherwise
`content == "" || !hasBodyFound` produces the no-valid-body error. -/
def retryFailure (r : ExtractResult) (url : String) : Option String :=
  match r.error with
  | some e => some ("コンテンツの抽出に失敗しました: " ++ e)
  | none =>
    if r.content == "" || !r.hasBodyFound then
      some ("URL " ++ url ++ " から有効な本文を抽出できませんでした")
    else none

/-- The retriedSuccessfulResults accumulation of the processFailedURLs loop:
each URL is retried once via the extractor; on success a fresh URLResult with
nil Error is appended, on failure the URL is logged and dropped. -/
def retryLoop (ext : Extractor) : List String → List URLResult
  | [] => []
  | url :: rest =>
    let r := ext url
    if (retryFailure r url).isSome then retryLoop ext rest
    else { url := url, content := r.content, error := none } :: retryLoop ext rest

/-- The extractor-call trace of the processFailedURLs loop: each iteration
performs exactly one FetchAndExtractText call on its URL, and the Go loop
body contains no break or early return, so the calls are the failed URLs in
original order. -/
def retryCallTrace (ext : Extractor) : List String → List String
  | [] => []
  | url :: rest =>
    let _ := ext url
    url :: retryCallTrace ext rest

/-- processFailedURLs (reliable_scraper.go): runs the retry loop and returns
the accumulated successes together with the function's error value, which the
Go code fixes at nil on its single return statement. -/
def processFailedURLs (ext : Extractor) (failedURLs : List String) :
    List URLResult × Option String :=
  (retryLoop ext failedURLs, none)

/-- The observable outcome of one ReliableScraper.ScrapeInParallel run:
the returned list plus the control-flow observations the claims mention. -/
structure ScrapeOutcome where
  results : List URLResult
  retryInvoked : Bool
  extractorCalls : List String
  retryWarnLogged : Bool
deriving Repr, DecidableEq

/-- ReliableScraper.ScrapeInParallel (reliable_scraper.go): bulk fetch,
classify, retry the failed URLs when any exist, merge, and return the empty
list when the merged successful set is empty.  `fetch` stands for the
injected baseScraper.ScrapeInParallel. -/
def scrapeInParallelRun (fetch : List String → List URLResult) (ext : Extractor)
    (urls : List String) : ScrapeOutcome :=
  let results := fetch urls
  let classified := classifyResults results
  let initialSuccessful := classified.1
  let failedURLs := classified.2
  let afterRetry : List URLResult × Bool × List String × Bool :=
    if failedURLs.length > 0 then
      let retry := processFailedURLs ext failedURLs
      (initialSuccessful ++ retry.1, true, retryCallTrace ext failedURLs,
        retry.2.isSome)
    else
      (initialSuccessful, false, [], false)
  let successfulResults := afterRetry.1
  { results := if successfulResults.length = 0 then [] else successfulResults
    retryInvoked := afterRetry.2.1
    extractorCalls := afterRetry.2.2.1
    retryWarnLogged := afterRetry.2.2.2 }

/-- The result list ReliableScraper.ScrapeInParallel returns to its caller. -/
def scrapeInParallel (fetch : List String → List URLResult) (ext : Extractor)
    (urls : List String) : List URLResult :=
  (scrapeInParallelRun fetch ext urls).results

/-- The parsed-feed data the Runner workflow consumes: the feed title,
the adapter's GetLinks output and its GetTitlesMap output. -/
structure GoFeed where
  title : String
  links : List String
  titlesMap : List (String × String)
deriving Repr, DecidableEq

/-- RunnerResult (runner.go): feed title, scrape results and URL→title map. -/
structure RunnerResult where
  feedTitle : String
  results : List URLResult
  titlesMap : List (String × String)
deriving Repr, DecidableEq

/-- The observable outcome of one Runner.ScrapeAndRun call: the returned
(pointer, error) pair plus whether ScraperExecutor.ScrapeInParallel was
invoked. -/
structure RunOutcome where
  value : Option RunnerResult
  error : Option String
  scraperInvoked : Bool
deriving Repr, DecidableEq

/-- Runner.ScrapeAndRun (runner.go): parse the feed (outcome supplied as
`fetchAndParse`, the injected FeedParser's result for this config), extract
URLs and titles, fail when zero URLs were extracted, otherwise delegate to
the injected ScraperExecutor and package the RunnerResult.  The context and
timeout arithmetic only bound real time and are elided. -/
def scrapeAndRun (fetchAndParse : Except String GoFeed)
    (scraperExecutor : List String → List URLResult) (feedURL : String) :
    RunOutcome :=
  match fetchAndParse with
  | .error e =>
    { value := none, error := some ("フィードの処理エラー: " ++ e),
      scraperInvoked := false }
  | .ok rssFeed =>
    let urls := rssFeed.links
    let titlesMap := rssFeed.titlesMap
    if urls.length = 0 then
      { value := none,
        error := some
          ("フィード (" ++ feedURL ++ ") から処理対象のURLが一つも抽出されませんでした"),
        scraperInvoked := false }
    else
      let results := scraperExecutor urls
      { value := some
          { feedTitle := rssFeed.title, results := results,
            titlesMap := titlesMap },
        error := none, scraperInvoked := true }

/-- Concrete bulk-fetcher behaviour for the spec's scenario: success for A
and C, failure for B. -/
def bulkABC : List String → List URLResult := fun _ =>
  [ { url := "A", content := "content-A", error := none },
    { url := "B", content := "", error := some "fetch failed" },
    { url := "C", content := "C-content", error := none } ]

/-- Concrete extractor behaviour that succeeds on every URL (used for the
retry of B in the spec's scenario). -/
def extB : Extractor := fun _ =>
  { content := "B-content", hasBodyFound := true, error := none }

/-- Concrete bulk-fetcher behaviour that succeeds on every URL. -/
def bulkOK : List String → List URLResult := fun urls =>
  urls.map (fun u => { url := u, content := "content-" ++ u, error := none })

/-- Concrete bulk-fetcher behaviour that fails on every URL. -/
def bulkAllFail : List String → List URLResult := fun urls =>
  urls.map (fun u => { url := u, content := "", error := some "boom" })

/-- Concrete extractor behaviour that fails on every URL. -/
def extFail : Extractor := fun _ =>
  { content := "", hasBodyFound := false, error := some "down" }

/-- Concrete extractor behaviour that succeeds on URL "a" only. -/
def extOnlyA : Extractor := fun u =>
  if u == "a" then { content := "a-content", hasBodyFound := true, error := none }
  else { content := "", hasBodyFound := false, error := some "down" }

end WebTextPipe

namespace WebTextPipe

theorem classifyResults_nil : classifyResults [] = ([], []) := rfl

/-- classifyResults keeps exactly the non-failed results, in order. -/
theorem classifyResults_fst (results : List URLResult) :
    (classifyResults results).1 = results.filter (fun r => !bulkFailed r) := by
  induction results with
  | nil => rfl
  | cons res rest ih =>
    simp only [classifyResults, List.filter]
    cases h : bulkFailed res <;> simp [h, ih]

/-- classifyResults collects exactly the URLs of the failed results, in
order. -/
theorem classifyResults_snd (results : List URLResult) :
    (classifyResults results).2 =
      (results.filter (fun r => bulkFailed r)).map URLResult.url := by
  induction results with
  | nil => rfl
  | cons res rest ih =>
    simp only [classifyResults, List.filter]
    cases h : bulkFailed res <;> simp [h, ih]

/-- The two classification components account for every input element. -/
theorem classifyResults_length (results : List URLResult) :
    (classifyResults results).1.length + (classifyResults results).2.length =
      results.length := by
  induction results with
  | nil => rfl
  | cons res rest ih =>
    simp only [classifyResults]
    cases h : bulkFailed res <;> simp [h, List.length_cons] <;> omega

/-- The retry loop keeps exactly the URLs whose single retry succeeded, in
attempt order, each packaged with its extracted content and a nil error. -/
theorem retryLoop_eq (ext : Extractor) (l : List String) :
    retryLoop ext l =
      (l.filter (fun u => (retryFailure (ext u) u).isNone)).map
        (fun u => URLResult.mk u (ext u).content none) := by
  induction l with
  | nil => rfl
  | cons url rest ih =>
    simp only [retryLoop, List.filter]
    cases h : (retryFailure (ext url) url).isSome <;>
      simp [h, Option.isNone, ih] <;>
      cases h2 : retryFailure (ext url) url <;> simp_all

/-- The extractor-call trace of the retry loop is the failed-URL list
itself. -/
theorem retryCallTrace_eq (ext : Extractor) (l : List String) :
    retryCallTrace ext l = l := by
  induction l with
  | nil => rfl
  | cons url rest ih => simp [retryCallTrace, ih]

/-- The list ScrapeInParallel returns is always the initial successes
followed by the retry successes (the empty-merge branch returns the merged
list too, since it is empty there). -/
theorem scrapeInParallel_eq (fetch : List String → List URLResult)
    (ext : Extractor) (urls : List String) :
    scrapeInParallel fetch ext urls =
      (classifyResults (fetch urls)).1 ++
        retryLoop ext (classifyResults (fetch urls)).2 := by
  by_cases h : (classifyResults (fetch urls)).2.length > 0
  · by_cases h2 : (classifyResults (fetch urls)).1 ++
        retryLoop ext (classifyResults (fetch urls)).2 = []
    · simp [scrapeInParallel, scrapeInParallelRun, processFailedURLs, h, h2,
        List.length_eq_zero]
    · simp [scrapeInParallel, scrapeInParallelRun, processFailedURLs, h, h2,
        List.length_eq_zero]
      intro h1
      simp [h1] at h2
      exact h2
  · have h0 : (classifyResults (fetch urls)).2 = [] :=
      List.length_eq_zero.mp (Nat.eq_zero_of_not_pos h)
    by_cases h2 : (classifyResults (fetch urls)).1 = []
    · simp [scrapeInParallel, scrapeInParallelRun, processFailedURLs, h0, h2,
        retryLoop, List.length_eq_zero]
    · simp [scrapeInParallel, scrapeInParallelRun, processFailedURLs, h0, h2,
        retryLoop, List.length_eq_zero]

/-- When classification yields no failed URL, the retry branch is not
entered: the flag is false and no extractor call occurs. -/
theorem scrapeInParallelRun_noRetry (fetch : List String → List URLResult)
    (ext : Extractor) (urls : List String)
    (h : (classifyResults (fetch urls)).2 = []) :
    (scrapeInParallelRun fetch ext urls).retryInvoked = false ∧
      (scrapeInParallelRun fetch ext urls).extractorCalls = [] := by
  unfold scrapeInParallelRun
  simp [h]

/-- The retry-warning branch flag is false on every run. -/
theorem scrapeInParallelRun_warn (fetch : List String → List URLResult)
    (ext : Extractor) (urls : List String) :
    (scrapeInParallelRun fetch ext urls).retryWarnLogged = false := by
  simp only [scrapeInParallelRun, processFailedURLs]
  split <;> simp

/-- When no result classifies as failed, every result classifies as a
success, in order. -/
theorem classifyResults_fst_of_snd_nil (results : List URLResult)
    (h : (classifyResults results).2 = []) :
    (classifyResults results).1 = results := by
  rw [classifyResults_snd] at h
  rw [classifyResults_fst]
  have hnil : results.filter (fun r => bulkFailed r) = [] :=
    List.map_eq_nil_iff.mp h
  rw [List.filter_eq_self]
  intro a ha
  have := List.filter_eq_nil_iff.mp hnil a ha
  simp_all

/-- Counting URLs: the successful results and the failed URLs jointly carry
each URL exactly as often as the bulk results do. -/
theorem classifyResults_count (results : List URLResult) (u : String) :
    ((classifyResults results).1.map URLResult.url).count u +
      (classifyResults results).2.count u =
      (results.map URLResult.url).count u := by
  induction results with
  | nil => rfl
  | cons res rest ih =>
    simp only [classifyResults, List.map_cons]
    cases h : bulkFailed res <;>
      simp [h, List.count_cons] <;> split <;> omega

/-- The URLs of the retry successes are the retry-successful failed URLs,
in attempt order. -/
theorem retryLoop_map_url (ext : Extractor) (l : List String) :
    (retryLoop ext l).map URLResult.url =
      l.filter (fun u => (retryFailure (ext u) u).isNone) := by
  rw [retryLoop_eq, List.map_map]
  have hcomp :
      (URLResult.url ∘ fun u => URLResult.mk u (ext u).content none) = id := rfl
  rw [hcomp, List.map_id]

/-- C1 counterexample: a URLResult with a non-nil error and non-empty
content is NOT placed in `successful` as claimed — classifyResults puts its
URL into failedURLs. -/
theorem C1_counterexample :
    (URLResult.mk "u" "body" (some "boom")).error.isSome = true ∧
    (URLResult.mk "u" "body" (some "boom")).content ≠ "" ∧
    (classifyResults [URLResult.mk "u" "body" (some "boom")]).1 = [] ∧
    (classifyResults [URLResult.mk "u" "body" (some "boom")]).2 = ["u"] :=
  ⟨rfl, by decide, rfl, rfl⟩

/-- C1 (amended): classifyResults places each URLResult in exactly one of
the two components (never both, never neither): into `successful` when it
has a NIL error and non-empty content, and its URL string into `failedURLs`
when its bulk attempt failed or returned empty content; in particular a
result with a reported success but zero-length body is classified as
failed. -/
theorem C1_classify_partition (results : List URLResult) :
    (classifyResults results).1 =
      results.filter (fun r => r.error.isNone && r.content != "") ∧
    (classifyResults results).2 =
      (results.filter (fun r => r.error.isSome || r.content == "")).map
        URLResult.url ∧
    (classifyResults results).1.length + (classifyResults results).2.length =
      results.length := by
  refine ⟨?_, ?_, classifyResults_length results⟩
  · rw [classifyResults_fst]
    apply List.filter_congr
    intro r _
    simp [bulkFailed]
    cases r.error <;> simp [bne]
  · rw [classifyResults_snd]
    rfl

/-- C2 counterexample: an Extractor outcome with no error and non-empty
content but no located body falsifies the claim — the claimed failure
condition (error, OR (empty content AND no body)) is false here, yet the
code classifies it as a failure and drops the URL. -/
theorem C2_counterexample :
    (ExtractResult.mk "text" false none).error = none ∧
    (ExtractResult.mk "text" false none).content ≠ "" ∧
    (retryFailure (ExtractResult.mk "text" false none) "u").isSome = true ∧
    processFailedURLs (fun _ => ExtractResult.mk "text" false none) ["u"] =
      ([], none) :=
  ⟨rfl, by decide, rfl, rfl⟩

/-- C2 (amended): in the retry phase a retried URL is classified a failure
exactly when the Extractor returned an error, OR its content is empty, OR
extraction did not locate a body; otherwise it is a success and is
accumulated into the retried-results list with its content and a nil
error. -/
theorem C2_retry_classification (ext : Extractor) (failedURLs : List String) :
    retryLoop ext failedURLs =
      (failedURLs.filter (fun u => (retryFailure (ext u) u).isNone)).map
        (fun u => URLResult.mk u (ext u).content none) ∧
    ∀ r url, (retryFailure r url).isSome =
      (r.error.isSome || r.content == "" || !r.hasBodyFound) := by
  refine ⟨retryLoop_eq ext failedURLs, ?_⟩
  intro r url
  unfold retryFailure
  cases r.error
  · cases h : (r.content == "" || !r.hasBodyFound) <;> simp_all
  · simp

/-- C3: ScrapeInParallel returns all initial-phase successes in their
original relative order followed by the retry-phase successes in
retry-attempt order; in the concrete scenario (bulk success for A and C,
bulk failure for B, retry success for B) the result is [A, C, B], length 3,
no entry carrying an error. -/
theorem C3_merge_order (fetch : List String → List URLResult)
    (ext : Extractor) (urls : List String) :
    scrapeInParallel fetch ext urls =
      (classifyResults (fetch urls)).1 ++
        retryLoop ext (classifyResults (fetch urls)).2 ∧
    scrapeInParallel bulkABC extB ["A", "B", "C"] =
      [ URLResult.mk "A" "content-A" none,
        URLResult.mk "C" "C-content" none,
        URLResult.mk "B" "B-content" none ] ∧
    (scrapeInParallel bulkABC extB ["A", "B", "C"]).length = 3 ∧
    (scrapeInParallel bulkABC extB ["A", "B", "C"]).all
      (fun r => r.error.isNone) = true :=
  ⟨scrapeInParallel_eq fetch ext urls, rfl, rfl, rfl⟩

/-- C8: processFailedURLs attempts every failed URL in original order — the
extractor-call trace equals the input list for every Extractor behaviour, so
an individual failure never aborts the loop — and the function itself never
fails: its error component is nil. -/
theorem C8_attempts_all (ext : Extractor) (failedURLs : List String) :
    retryCallTrace ext failedURLs = failedURLs ∧
    (processFailedURLs ext failedURLs).2 = none :=
  ⟨retryCallTrace_eq ext failedURLs, rfl⟩

/-- C10: processFailedURLs returns a nil error for every input and every
Extractor behaviour, so the retryErr-not-nil warning branch in
ScrapeInParallel is never taken. -/
theorem C10_retry_error_unreachable (ext : Extractor)
    (failedURLs : List String) (fetch : List String → List URLResult)
    (urls : List String) :
    (processFailedURLs ext failedURLs).2 = none ∧
    (scrapeInParallelRun fetch ext urls).retryWarnLogged = false :=
  ⟨rfl, scrapeInParallelRun_warn fetch ext urls⟩

/-- C4: when the bulk output is non-empty and classification yields no
failure, ScrapeInParallel returns exactly the bulk results, order preserved,
and the retry path is never entered (no extractor call occurs). -/
theorem C4_no_failures (fetch : List String → List URLResult)
    (ext : Extractor) (urls : List String)
    (hne : fetch urls ≠ [])
    (hfail : (classifyResults (fetch urls)).2 = []) :
    scrapeInParallel fetch ext urls = fetch urls ∧
    (scrapeInParallelRun fetch ext urls).retryInvoked = false ∧
    (scrapeInParallelRun fetch ext urls).extractorCalls = [] := by
  have hsucc := classifyResults_fst_of_snd_nil (fetch urls) hfail
  have hrun := scrapeInParallelRun_noRetry fetch ext urls hfail
  refine ⟨?_, hrun.1, hrun.2⟩
  rw [scrapeInParallel_eq, hfail, hsucc]
  simp [retryLoop]

/-- C4 witness: an all-success bulk run on one URL. -/
theorem C4_witness :
    bulkOK ["a"] ≠ [] ∧ (classifyResults (bulkOK ["a"])).2 = [] ∧
    (scrapeInParallel bulkOK extFail ["a"] = bulkOK ["a"] ∧
      (scrapeInParallelRun bulkOK extFail ["a"]).retryInvoked = false ∧
      (scrapeInParallelRun bulkOK extFail ["a"]).extractorCalls = []) :=
  ⟨by decide, rfl, C4_no_failures bulkOK extFail ["a"] (by decide) rfl⟩

/-- C5: when the bulk phase fails every URL, the final result is exactly the
retry successes in retry-attempt order; when the retry succeeds on a strict
subset of the failed URLs, the returned URLs are exactly that subset. -/
theorem C5_all_failed_retry_subset (fetch : List String → List URLResult)
    (ext : Extractor) (urls : List String)
    (hallfail : (classifyResults (fetch urls)).1 = [])
    (hstrict : ((classifyResults (fetch urls)).2.filter
        (fun u => (retryFailure (ext u) u).isNone)).length <
      (classifyResults (fetch urls)).2.length) :
    scrapeInParallel fetch ext urls =
      retryLoop ext (classifyResults (fetch urls)).2 ∧
    (scrapeInParallel fetch ext urls).map URLResult.url =
      (classifyResults (fetch urls)).2.filter
        (fun u => (retryFailure (ext u) u).isNone) := by
  have he := scrapeInParallel_eq fetch ext urls
  rw [hallfail] at he
  simp only [List.nil_append] at he
  refine ⟨he, ?_⟩
  rw [he, retryLoop_eq, List.map_map]
  have hcomp :
      (URLResult.url ∘ fun u => URLResult.mk u (ext u).content none) = id := rfl
  rw [hcomp, List.map_id]

/-- C5 witness: both URLs fail the bulk phase, the retry salvages only
"a". -/
theorem C5_witness :
    (classifyResults (bulkAllFail ["a", "b"])).1 = [] ∧
    ((classifyResults (bulkAllFail ["a", "b"])).2.filter
        (fun u => (retryFailure (extOnlyA u) u).isNone)).length <
      (classifyResults (bulkAllFail ["a", "b"])).2.length ∧
    (scrapeInParallel bulkAllFail extOnlyA ["a", "b"] =
        retryLoop extOnlyA (classifyResults (bulkAllFail ["a", "b"])).2 ∧
      (scrapeInParallel bulkAllFail extOnlyA ["a", "b"]).map URLResult.url =
        (classifyResults (bulkAllFail ["a", "b"])).2.filter
          (fun u => (retryFailure (extOnlyA u) u).isNone)) :=
  ⟨rfl, by decide,
    C5_all_failed_retry_subset bulkAllFail extOnlyA ["a", "b"] rfl (by decide)⟩

/-- C6: whenever the merged successful set is empty, ScrapeInParallel
returns the empty list (the function is total, so neither an error value nor
a panic is possible in the embedding), and the caller sees length zero. -/
theorem C6_empty_merge (fetch : List String → List URLResult)
    (ext : Extractor) (urls : List String)
    (hempty : (classifyResults (fetch urls)).1 ++
        retryLoop ext (classifyResults (fetch urls)).2 = []) :
    scrapeInParallel fetch ext urls = [] ∧
    (scrapeInParallel fetch ext urls).length = 0 := by
  have he := scrapeInParallel_eq fetch ext urls
  rw [hempty] at he
  exact ⟨he, by rw [he]; rfl⟩

/-- C6 witness: both phases fail the only URL. -/
theorem C6_witness :
    ((classifyResults (bulkAllFail ["x"])).1 ++
        retryLoop extFail (classifyResults (bulkAllFail ["x"])).2 = []) ∧
    (scrapeInParallel bulkAllFail extFail ["x"] = [] ∧
      (scrapeInParallel bulkAllFail extFail ["x"]).length = 0) :=
  ⟨by decide, C6_empty_merge bulkAllFail extFail ["x"] (by decide)⟩

/-- C9: when the feed parses successfully but yields zero extracted URLs,
ScrapeAndRun returns a nil result pointer and a non-nil error, and the
scraper executor (ReliableScraper.ScrapeInParallel) is never invoked. -/
theorem C9_zero_urls (feed : GoFeed)
    (scraperExecutor : List String → List URLResult) (feedURL : String)
    (hlinks : feed.links = []) :
    (scrapeAndRun (Except.ok feed) scraperExecutor feedURL).value = none ∧
    (scrapeAndRun (Except.ok feed) scraperExecutor feedURL).error.isSome =
      true ∧
    (scrapeAndRun (Except.ok feed) scraperExecutor feedURL).scraperInvoked =
      false := by
  simp [scrapeAndRun, hlinks]

/-- C9 witness: a parsed feed with an empty link list. -/
theorem C9_witness :
    (GoFeed.mk "t" [] []).links = [] ∧
    ((scrapeAndRun (Except.ok (GoFeed.mk "t" [] [])) (fun _ => [])
          "http://feed").value = none ∧
      (scrapeAndRun (Except.ok (GoFeed.mk "t" [] [])) (fun _ => [])
          "http://feed").error.isSome = true ∧
      (scrapeAndRun (Except.ok (GoFeed.mk "t" [] [])) (fun _ => [])
          "http://feed").scraperInvoked = false) :=
  ⟨rfl, C9_zero_urls (GoFeed.mk "t" [] []) (fun _ => []) "http://feed" rfl⟩

/-- C7: with distinct input URLs and a bulk fetcher returning one result per
input URL with matching URL fields, every returned entry carries a nil error
(the final result set is success-only), every URL appears at most once in
the returned list, and a URL that fails both the bulk classification and its
retry is absent from the returned URL list. -/
theorem C7_success_only (fetch : List String → List URLResult)
    (ext : Extractor) (urls : List String)
    (hnodup : urls.Nodup)
    (hurls : (fetch urls).map URLResult.url = urls) :
    (scrapeInParallel fetch ext urls).all (fun r => r.error.isNone) = true ∧
    ((scrapeInParallel fetch ext urls).map URLResult.url).Nodup ∧
    ((classifyResults (fetch urls)).2.filter
        (fun u => (retryFailure (ext u) u).isSome)).all
      (fun u =>
        ((scrapeInParallel fetch ext urls).map URLResult.url).count u == 0) =
      true := by
  have he := scrapeInParallel_eq fetch ext urls
  have hcount : ∀ u : String, ((fetch urls).map URLResult.url).count u ≤ 1 := by
    rw [hurls]
    exact List.nodup_iff_count_le_one.mp hnodup
  have hsplit : ∀ u : String,
      ((classifyResults (fetch urls)).1.map URLResult.url).count u +
        (classifyResults (fetch urls)).2.count u ≤ 1 := by
    intro u
    rw [classifyResults_count]
    exact hcount u
  have hmapurl : (scrapeInParallel fetch ext urls).map URLResult.url =
      (classifyResults (fetch urls)).1.map URLResult.url ++
        (classifyResults (fetch urls)).2.filter
          (fun u => (retryFailure (ext u) u).isNone) := by
    rw [he, List.map_append, retryLoop_map_url]
  refine ⟨?_, ?_, ?_⟩
  · rw [he, List.all_append, Bool.and_eq_true]
    constructor
    · rw [classifyResults_fst, List.all_eq_true]
      intro r hr
      have h2 := (List.mem_filter.mp hr).2
      simp [bulkFailed] at h2
      simp [h2.1]
    · rw [retryLoop_eq, List.all_eq_true]
      intro r hr
      obtain ⟨u, _, rfl⟩ := List.mem_map.mp hr
      rfl
  · rw [List.nodup_iff_count_le_one]
    intro u
    rw [hmapurl, List.count_append]
    have hfilter :
        ((classifyResults (fetch urls)).2.filter
            (fun u => (retryFailure (ext u) u).isNone)).count u ≤
          (classifyResults (fetch urls)).2.count u :=
      List.Sublist.count_le (List.filter_sublist _) u
    have := hsplit u
    omega
  · rw [List.all_eq_true]
    intro u hu
    have hmem := List.mem_filter.mp hu
    have hsome : (retryFailure (ext u) u).isSome = true := by
      simpa using hmem.2
    have hpos : 1 ≤ (classifyResults (fetch urls)).2.count u :=
      List.count_pos_iff.mpr hmem.1
    have hsucc0 :
        ((classifyResults (fetch urls)).1.map URLResult.url).count u = 0 := by
      have := hsplit u
      omega
    have hret0 :
        ((classifyResults (fetch urls)).2.filter
            (fun u => (retryFailure (ext u) u).isNone)).count u = 0 := by
      rw [List.count_eq_zero]
      intro hmem2
      have h3 := (List.mem_filter.mp hmem2).2
      cases h4 : retryFailure (ext u) u <;> simp_all
    rw [hmapurl, List.count_append, hsucc0, hret0]
    rfl

/-- C7 witness: distinct URLs A, B, C; the bulk output URLs match the input;
B fails the bulk phase and succeeds on retry. -/
theorem C7_witness :
    (["A", "B", "C"] : List String).Nodup ∧
    (bulkABC ["A", "B", "C"]).map URLResult.url = ["A", "B", "C"] ∧
    ((scrapeInParallel bulkABC extB ["A", "B", "C"]).all
        (fun r => r.error.isNone) = true ∧
      ((scrapeInParallel bulkABC extB ["A", "B", "C"]).map
          URLResult.url).Nodup ∧
      ((classifyResults (bulkABC ["A", "B", "C"])).2.filter
          (fun u => (retryFailure (extB u) u).isSome)).all
        (fun u =>
          ((scrapeInParallel bulkABC extB ["A", "B", "C"]).map
              URLResult.url).count u == 0) = true) :=
  ⟨by decide, rfl, C7_success_only bulkABC extB ["A", "B", "C"] (by decide) rfl⟩

end WebTextPipe
